import Mathlib

/-
Shallow embedding of the concurrency/orchestration core of the
SmartDiabetesAssistant repository:

  * `src/feedback/coordinator.py`  (`FeedbackCoordinator`)
  * `src/processing/video_pipeline.py`  (`VideoProcessingPipeline`)
  * `src/agents/vision_agent.py` / `src/agents/main_agent.py`
    (`VisionAgent.process_frame`, `MainAgent._vision_processing_node`)

Python float timestamps are modelled as integers (their arithmetic here is
only subtraction of whole seconds and ordering); float durations are exact
rationals; the opaque image buffers are identified by natural numbers.  Asynchronous collaborator
calls are modelled by passing their outcomes (`Except`) as explicit inputs.
-/

/-! ## Data model of the feedback coordinator -/

/-- An alert dict as passed to `FeedbackCoordinator.send_feedback`
    (`{"type", "severity", "message", "timestamp"}`; the free-form `data`
    field is never read by the coordinator and is omitted). -/
structure Alert where
  type : String
  severity : String
  message : String
  timestamp : ℤ
deriving DecidableEq

/-- One entry of `FeedbackCoordinator.feedback_history`
    (appended by `_record_feedback`). -/
structure HistoryEntry where
  type : String
  severity : String
  message : String
  timestamp : ℤ
deriving DecidableEq

/-- The `"audio"` payload of a plan item. -/
structure AudioPayload where
  message : String
  urgency : String
deriving DecidableEq

/-- The `"vibration"` payload of a plan item. -/
structure VibrationPayload where
  pattern : String
  duration : ℚ
deriving DecidableEq

/-- The `"visual"` payload of a plan item. -/
structure VisualPayload where
  type : String
  content : String
  duration : ℚ
deriving DecidableEq

/-- One item of the plan list built by
    `FeedbackCoordinator._generate_feedback_plan`. -/
structure FeedbackStep where
  modalities : List String
  synchronization : String
  audio : Option AudioPayload
  vibration : Option VibrationPayload
  visual : Option VisualPayload
deriving DecidableEq

/- The `FeedbackPriority` constants of `coordinator.py`. -/
namespace FeedbackPriority

def CRITICAL : Nat := 0

def WARNING : Nat := 1

def INFO : Nat := 2

end FeedbackPriority

/-- `FeedbackCoordinator._get_severity_priority`: the `priority_map` lookup
    with default `FeedbackPriority.INFO` (the smaller the number, the higher
    the priority). -/
def getSeverityPriority (severity : String) : Nat :=
  if severity = "critical" then FeedbackPriority.CRITICAL
  else if severity = "warning" then FeedbackPriority.WARNING
  else if severity = "info" then FeedbackPriority.INFO
  else FeedbackPriority.INFO

/-- `self.history_window_sec`, fixed at 30 in `FeedbackCoordinator.__init__`
    and never reassigned. -/
def historyWindowSec : ℤ := 30

/-- The sort at the top of `_generate_feedback_plan`:
    `sorted(alerts, key=lambda x: priority(x["severity"]), reverse=True)`.
    Python's sort is stable and `reverse=True` places larger key values
    first while ties keep their original order; every stable sort for the
    total preorder "priority of `a` ≥ priority of `b`" computes the same
    list, so the stable insertion sort with that relation is used. -/
def sortAlerts (alerts : List Alert) : List Alert :=
  List.insertionSort
    (fun a b => getSeverityPriority b.severity ≤ getSeverityPriority a.severity)
    alerts

/-- `FeedbackCoordinator._should_suppress`: first purge
    `self.feedback_history` down to the entries with
    `timestamp > now - history_window_sec`, then report whether a surviving
    entry has the alert's `type`.  The method mutates
    `self.feedback_history`, so the purged history is returned alongside
    the flag. -/
def shouldSuppress (history : List HistoryEntry) (now : ℤ) (alert : Alert) :
    Bool × List HistoryEntry :=
  let cutoff := now - historyWindowSec
  let purged := history.filter fun a => decide (cutoff < a.timestamp)
  let recent := purged.filter fun a =>
    a.type == alert.type && decide (cutoff < a.timestamp)
  (decide (0 < recent.length), purged)

/-- The float literal `0.5` of the source, as an exact rational written
    directly in lowest terms (so that it evaluates in the kernel). -/
def ratHalf : ℚ := ⟨1, 2, by decide, by decide⟩

/-- The plan item `_generate_feedback_plan` appends for a critical alert:
    audio + vibration + visual, dispatched simultaneously. -/
def criticalStep (alert : Alert) : FeedbackStep :=
  { modalities := ["audio", "vibration", "visual"]
    synchronization := "simultaneous"
    audio := some { message := alert.message, urgency := "high" }
    vibration := some { pattern := "strong_warning", duration := 1 }
    visual := some { type := "error", content := alert.message, duration := 3 } }

/-- The plan item `_generate_feedback_plan` appends for a warning alert:
    audio + vibration, dispatched simultaneously. -/
def warningStep (alert : Alert) : FeedbackStep :=
  { modalities := ["audio", "vibration"]
    synchronization := "simultaneous"
    audio := some { message := alert.message, urgency := "medium" }
    vibration := some { pattern := "double_click", duration := ratHalf }
    visual := none }

/-- The plan item `_generate_feedback_plan` appends for an info alert:
    audio only, no synchronization. -/
def infoStep (alert : Alert) : FeedbackStep :=
  { modalities := ["audio"]
    synchronization := "none"
    audio := some { message := alert.message, urgency := "low" }
    vibration := none
    visual := none }

/-- The `if severity == ...` chain in the loop body of
    `_generate_feedback_plan`: the plan item appended for an alert, if any —
    a severity outside the three known strings falls through the chain and
    appends nothing. -/
def severityStep (alert : Alert) : Option FeedbackStep :=
  if alert.severity = "critical" then some (criticalStep alert)
  else if alert.severity = "warning" then some (warningStep alert)
  else if alert.severity = "info" then some (infoStep alert)
  else none

/-- The `for alert in sorted_alerts` loop of `_generate_feedback_plan`:
    suppressed alerts are skipped (`continue`), the purge performed by each
    `_should_suppress` call is threaded through, and the severity chain
    appends `severityStep alert` when it produces an item. -/
def planLoop (now : ℤ) : List Alert → List HistoryEntry →
    List FeedbackStep × List HistoryEntry
  | [], history => ([], history)
  | alert :: rest, history =>
    let r := shouldSuppress history now alert
    if r.1 then planLoop now rest r.2
    else
      let p := planLoop now rest r.2
      match severityStep alert with
      | some step => (step :: p.1, p.2)
      | none => p

/-- `FeedbackCoordinator._generate_feedback_plan`: sort, then run the loop.
    Returns the plan and the history left behind by the purges. -/
def generateFeedbackPlan (history : List HistoryEntry) (now : ℤ)
    (alerts : List Alert) : List FeedbackStep × List HistoryEntry :=
  planLoop now (sortAlerts alerts) history

/-- `FeedbackCoordinator._record_feedback`: append every alert of the batch
    to the history with `timestamp = current_time`. -/
def recordFeedback (history : List HistoryEntry) (now : ℤ)
    (alerts : List Alert) : List HistoryEntry :=
  history ++ alerts.map fun a =>
    { type := a.type, severity := a.severity, message := a.message,
      timestamp := now }

/-- `FeedbackCoordinator.send_feedback`: an empty batch returns at once;
    otherwise the plan is generated (purging the history), executed (which
    does not touch the history) and the whole batch is recorded.  The
    executed plan and the final history are returned. -/
def sendFeedback (history : List HistoryEntry) (now : ℤ)
    (alerts : List Alert) : List FeedbackStep × List HistoryEntry :=
  if alerts.isEmpty then ([], history)
  else
    let r := generateFeedbackPlan history now alerts
    (r.1, recordFeedback r.2 now alerts)

/-! ## Execution of a feedback plan -/

/-- A call into one of the three output collaborators
    (`tts_agent.speak`, `haptic_agent.vibrate`, `ui_agent.display`). -/
inductive OutputCall
  | speak (p : AudioPayload)
  | vibrate (p : VibrationPayload)
  | display (p : VisualPayload)
deriving DecidableEq

/-- The behaviour of the three collaborators; `Except.error` models an
    exception raised inside the call. -/
structure OutputEnv where
  speak : AudioPayload → Except String Unit
  vibrate : VibrationPayload → Except String Unit
  display : VisualPayload → Except String Unit

/-- One `tasks.append(...)` site of `_execute_feedback_plan`: if the
    modality is listed, `item["..."]` is read — a missing payload raises
    `KeyError` (modelled as `none`). -/
def modalityTask (present : Bool) (payload : Option α) (mk : α → OutputCall) :
    Option (List OutputCall) :=
  if present then
    match payload with
    | some p => some [mk p]
    | none => none
  else some []

/-- The `tasks` list built for one plan item. -/
def itemTasks (item : FeedbackStep) : Option (List OutputCall) := do
  let a ← modalityTask (decide ("audio" ∈ item.modalities)) item.audio OutputCall.speak
  let v ← modalityTask (decide ("vibration" ∈ item.modalities)) item.vibration OutputCall.vibrate
  let d ← modalityTask (decide ("visual" ∈ item.modalities)) item.visual OutputCall.display
  pure (a ++ v ++ d)

/-- Dispatch one prepared task to its collaborator. -/
def runCall (env : OutputEnv) : OutputCall → Except String Unit
  | .speak p => env.speak p
  | .vibrate p => env.vibrate p
  | .display p => env.display p

/-- Execution of one plan item: in the `simultaneous` branch the tasks run
    under `asyncio.gather(..., return_exceptions=True)` — every task runs,
    failures are collected into the (discarded) result list; otherwise each
    task is awaited under its own `try/except`, a failure being printed and
    the loop continuing.  Returns the calls issued and the messages logged
    by the sequential branch, or `none` if building `tasks` raised. -/
def executeItem (env : OutputEnv) (item : FeedbackStep) :
    Option (List OutputCall × List String) := do
  let tasks ← itemTasks item
  if item.synchronization = "simultaneous" ∧ 1 < tasks.length then
    let _ := tasks.map (runCall env)
    pure (tasks, [])
  else
    let logs := tasks.filterMap fun t =>
      match runCall env t with
      | .error e => some e
      | .ok _ => none
    pure (tasks, logs)

/-- `FeedbackCoordinator._execute_feedback_plan`, observed as the sequence
    of collaborator calls issued plus the sequential-branch log lines. -/
def executeFeedbackPlan (env : OutputEnv) :
    List FeedbackStep → Option (List OutputCall × List String)
  | [] => some ([], [])
  | item :: rest => do
    let r ← executeItem env item
    let rs ← executeFeedbackPlan env rest
    pure (r.1 ++ rs.1, r.2 ++ rs.2)

/-- The calls a plan item asks for, read off the item alone. -/
def itemCalls (item : FeedbackStep) : List OutputCall :=
  (if "audio" ∈ item.modalities then (item.audio.map OutputCall.speak).toList else []) ++
  (if "vibration" ∈ item.modalities then (item.vibration.map OutputCall.vibrate).toList else []) ++
  (if "visual" ∈ item.modalities then (item.visual.map OutputCall.display).toList else [])

/-- Well-formedness of a plan item: every listed modality carries its
    payload (true of everything `_generate_feedback_plan` builds). -/
def stepWF (item : FeedbackStep) : Bool :=
  (!decide ("audio" ∈ item.modalities) || item.audio.isSome) &&
  (!decide ("vibration" ∈ item.modalities) || item.vibration.isSome) &&
  (!decide ("visual" ∈ item.modalities) || item.visual.isSome)

/-! ## The bounded frame pipeline -/

/-- One frame dict as built in `_produce_frames`
    (`{"image", "timestamp", "frame_id"}`); the opaque image buffer is
    identified by a natural number. -/
structure FrameData where
  image : Nat
  timestamp : ℤ
  frame_id : Nat
deriving DecidableEq

/-- The part of `VideoProcessingPipeline` shared by producer and consumer:
    the frame queue (front = oldest, as in `asyncio.Queue`) and the two
    counters of `self.stats` written by the producer. -/
structure PipeState where
  queue : List FrameData
  frames_processed : Nat
  frames_dropped : Nat
deriving DecidableEq

/-- The pipeline state right after `start` (empty queue, zeroed stats). -/
def initPipeState : PipeState :=
  { queue := [], frames_processed := 0, frames_dropped := 0 }

/-- One iteration of the `while self.running` loop of `_produce_frames`,
    given the outcome of `camera.read_frame()` (`none` for a failed read).
    A successful read is stamped with
    `frame_id = self.stats["frames_processed"]` and enqueued with
    `put_nowait`; `asyncio.Queue(maxsize=0)` is unbounded, otherwise
    `put_nowait` raises `QueueFull` when the queue holds `queue_size`
    items, in which case the oldest frame is evicted with `get_nowait`,
    the new frame is enqueued and `frames_dropped` is bumped (the bare
    `except: pass` can only fire on an empty queue).  A failed read skips
    the body and the loop continues with the next period. -/
def produceOne (queueSize : Nat) (s : PipeState) (read : Option (Nat × ℤ)) :
    PipeState :=
  match read with
  | none => s
  | some (img, t) =>
    let fd : FrameData :=
      { image := img, timestamp := t, frame_id := s.frames_processed }
    if queueSize = 0 ∨ s.queue.length < queueSize then
      { s with queue := s.queue ++ [fd],
               frames_processed := s.frames_processed + 1 }
    else
      match s.queue with
      | [] => s
      | _ :: older =>
        { s with queue := older ++ [fd],
                 frames_dropped := s.frames_dropped + 1 }

/-- `_produce_frames` run over a finite schedule of camera reads while the
    consumer never takes anything from the queue. -/
def produceFrames (queueSize : Nat) (s : PipeState)
    (reads : List (Option (Nat × ℤ))) : PipeState :=
  reads.foldl (produceOne queueSize) s

/-- `_consume_frames` draining the queue: each `await self.frame_queue.get()`
    pops the front, so the consumer observes the queued frames in FIFO
    order. -/
def consumeFrames (s : PipeState) : List FrameData :=
  s.queue

/-- The images the camera actually delivered, in delivery order. -/
def readImages (reads : List (Option (Nat × ℤ))) : List Nat :=
  reads.filterMap fun r => r.map Prod.fst

/-! ## The vision stage of the orchestrator -/

/-- Pose keypoints as documented in `VisionAgent._estimate_pose`
    (name ↦ `[x, y, confidence]`). -/
structure PoseData where
  keypoints : List (String × ℚ × ℚ × ℚ)
  bbox : List ℚ
  confidence : ℚ
deriving DecidableEq

/-- A detection as documented in `VisionAgent._detect_site`. -/
structure SiteData where
  class_id : Nat
  class_name : String
  confidence : ℚ
  bbox : List ℚ
  is_recommended : Bool
deriving DecidableEq

/-- The optical-flow summary documented in `VisionAgent._calculate_flow`. -/
structure FlowData where
  vectors : List (ℚ × ℚ × ℚ × ℚ)
  avg_speed : ℚ
deriving DecidableEq

/-- The dict returned by `VisionAgent.process_frame`: each sub-result is a
    possibly-empty dict, `none` standing for `{}`. -/
structure VisionResult where
  pose : Option PoseData
  site : Option SiteData
  flow : Option FlowData
  timestamp : ℤ
deriving DecidableEq

/-- `results[i] if not isinstance(results[i], Exception) else {}`: a raised
    sub-analysis degrades to the empty dict. -/
def degradeResult (r : Except String (Option α)) : Option α :=
  match r with
  | .ok d => d
  | .error _ => none

/-- `VisionAgent.process_frame`, given the outcomes of the three
    sub-analyses gathered with `asyncio.gather(..., return_exceptions=True)`;
    a missing image yields `_empty_result`. -/
def processFrame (image : Option Nat) (timestamp : ℤ)
    (poseOutcome : Except String (Option PoseData))
    (siteOutcome : Except String (Option SiteData))
    (flowOutcome : Except String (Option FlowData)) : VisionResult :=
  match image with
  | none => { pose := none, site := none, flow := none, timestamp := timestamp }
  | some _ =>
    { pose := degradeResult poseOutcome
      site := degradeResult siteOutcome
      flow := degradeResult flowOutcome
      timestamp := timestamp }

/-- The fields of `AgentState` written by the vision node. -/
structure VisionState where
  pose_data : Option PoseData
  injection_site : Option SiteData
  injection_angle : ℚ
  injection_speed : ℚ
deriving DecidableEq

/-- `MainAgent._vision_processing_node`: copy the sub-results into the
    state; an absent (falsy) `pose_data` maps to `injection_angle = 0.0`
    and an absent `flow` to `injection_speed = 0.0`.  The keypoint
    geometry of `_calculate_injection_angle` and the vector average of
    `_calculate_injection_speed` are floating-point numerics abstracted as
    the parameters `calcAngle` / `calcSpeed`; only the absent/present
    dispatch around them is in question here. -/
def visionProcessingNode (calcAngle : PoseData → ℚ) (calcSpeed : FlowData → ℚ)
    (vr : VisionResult) (st : VisionState) : VisionState :=
  let st1 := { st with pose_data := vr.pose, injection_site := vr.site }
  let st2 :=
    { st1 with injection_angle :=
        match vr.pose with
        | some p => calcAngle p
        | none => 0 }
  { st2 with injection_speed :=
      match vr.flow with
      | some f => calcSpeed f
      | none => 0 }

/-! ## Concrete scenario inputs -/

/-- 40 successful camera reads delivering images 1..40 (spec scenario for
    the backpressure property). -/
def scenarioReads40 : List (Option (Nat × ℤ)) :=
  (List.range 40).map fun i => some (i + 1, 0)

/-- 32 successful camera reads delivering images 1..32 (two overflows of a
    capacity-30 queue). -/
def scenarioReads32 : List (Option (Nat × ℤ)) :=
  (List.range 32).map fun i => some (i + 1, 0)

/-- The spec scenario's first alert: `{kind=angle_error, severity=critical,
    t=0}`. -/
def angleAlertT0 : Alert :=
  { type := "angle_error", severity := "critical", message := "angle too low",
    timestamp := 0 }

/-- The spec scenario's second alert: `{kind=angle_error,
    severity=critical, t=5}`. -/
def angleAlertT5 : Alert :=
  { type := "angle_error", severity := "critical", message := "angle too low",
    timestamp := 5 }

/-- An output environment whose haptic collaborator raises on every
    `vibrate()` while audio and visual succeed. -/
def failingVibrationEnv : OutputEnv :=
  { speak := fun _ => Except.ok ()
    vibrate := fun _ => Except.error "no haptic hardware"
    display := fun _ => Except.ok () }

/-! ## Helper lemmas -/

/-- Sorting the alerts does not change which alerts occur. -/
theorem mem_sortAlerts {a : Alert} {alerts : List Alert} :
    a ∈ sortAlerts alerts ↔ a ∈ alerts :=
  List.mem_insertionSort _

/-- `_should_suppress` rewrites the history to exactly its unexpired
    entries. -/
theorem shouldSuppress_snd (history : List HistoryEntry) (now : ℤ) (alert : Alert) :
    (shouldSuppress history now alert).2 =
      history.filter fun e => decide (now - historyWindowSec < e.timestamp) :=
  rfl

/-- The plan loop only ever filters the history it threads through. -/
theorem planLoop_snd_sublist (now : ℤ) :
    ∀ (alerts : List Alert) (history : List HistoryEntry),
      (planLoop now alerts history).2.Sublist history
  | [], _ => List.Sublist.refl _
  | alert :: rest, history => by
    have hsub : (shouldSuppress history now alert).2.Sublist history := by
      rw [shouldSuppress_snd]
      exact List.filter_sublist _
    have ih := planLoop_snd_sublist now rest (shouldSuppress history now alert).2
    unfold planLoop
    dsimp only
    split
    · exact ih.trans hsub
    · split
      · exact ih.trans hsub
      · exact ih.trans hsub

/-- Inversion of the severity chain. -/
theorem severityStep_eq_some {alert : Alert} {step : FeedbackStep}
    (h : severityStep alert = some step) :
    (alert.severity = "critical" ∧ step = criticalStep alert) ∨
    (alert.severity = "warning" ∧ step = warningStep alert) ∨
    (alert.severity = "info" ∧ step = infoStep alert) := by
  unfold severityStep at h
  split_ifs at h with h1 h2 h3
  · cases h
    exact Or.inl ⟨h1, rfl⟩
  · cases h
    exact Or.inr (Or.inl ⟨h2, rfl⟩)
  · cases h
    exact Or.inr (Or.inr ⟨h3, rfl⟩)

/-- Every step emitted by the plan loop is the severity-determined step of
    one of the looped-over alerts. -/
theorem planLoop_mem (now : ℤ) :
    ∀ (alerts : List Alert) (history : List HistoryEntry) (step : FeedbackStep),
      step ∈ (planLoop now alerts history).1 →
      ∃ a, a ∈ alerts ∧
        ((a.severity = "critical" ∧ step = criticalStep a) ∨
         (a.severity = "warning" ∧ step = warningStep a) ∨
         (a.severity = "info" ∧ step = infoStep a))
  | [], history, step => by simp [planLoop]
  | alert :: rest, history, step => by
    have ih := planLoop_mem now rest (shouldSuppress history now alert).2 step
    unfold planLoop
    dsimp only
    split
    · intro hmem
      obtain ⟨a, ha, hm⟩ := ih hmem
      exact ⟨a, List.mem_cons_of_mem _ ha, hm⟩
    · split
      · rename_i hsev
        intro hmem
        rcases List.mem_cons.mp hmem with heq | hmem'
        · subst heq
          exact ⟨alert, List.mem_cons_self _ _, severityStep_eq_some hsev⟩
        · obtain ⟨a, ha, hm⟩ := ih hmem'
          exact ⟨a, List.mem_cons_of_mem _ ha, hm⟩
      · intro hmem
        obtain ⟨a, ha, hm⟩ := ih hmem
        exact ⟨a, List.mem_cons_of_mem _ ha, hm⟩


/-- Joint invariant of the producer loop run from a legally-filled queue:
    the queue, viewed as images, is always the capacity-sized suffix of
    "what was queued plus everything the camera delivered since", its
    length is capped at the capacity, and each overflow bumps
    `frames_dropped` by one. -/
theorem produceFrames_spec (queueSize : Nat) (hq : 1 ≤ queueSize)
    (reads : List (Option (Nat × ℤ))) :
    ∀ s : PipeState, s.queue.length ≤ queueSize →
      (produceFrames queueSize s reads).queue.map FrameData.image =
        (s.queue.map FrameData.image ++ readImages reads).drop
          (s.queue.length + (readImages reads).length - queueSize) ∧
      (produceFrames queueSize s reads).queue.length =
        min (s.queue.length + (readImages reads).length) queueSize ∧
      (produceFrames queueSize s reads).frames_dropped =
        s.frames_dropped + (s.queue.length + (readImages reads).length - queueSize) := by
  induction reads with
  | nil =>
    intro s hs
    refine ⟨?_, ?_, ?_⟩
    · simp [produceFrames, readImages, Nat.sub_eq_zero_of_le hs]
    · simp [produceFrames, readImages, Nat.min_eq_left hs]
    · simp [produceFrames, readImages, Nat.sub_eq_zero_of_le hs]
  | cons r rest ih =>
    intro s hs
    obtain ⟨q, fp, fdp⟩ := s
    have hsq : q.length ≤ queueSize := hs
    match r with
    | none =>
      simpa [produceFrames, produceOne, readImages] using ih ⟨q, fp, fdp⟩ hs
    | some (img, t) =>
      have hq0 : ¬ queueSize = 0 := by omega
      have hfold : produceFrames queueSize ⟨q, fp, fdp⟩ (some (img, t) :: rest) =
          produceFrames queueSize (produceOne queueSize ⟨q, fp, fdp⟩ (some (img, t))) rest := rfl
      have hri : readImages (some (img, t) :: rest) = img :: readImages rest := by
        simp [readImages]
      by_cases hlt : q.length < queueSize
      · have hstep : produceOne queueSize ⟨q, fp, fdp⟩ (some (img, t)) =
            ⟨q ++ [⟨img, t, fp⟩], fp + 1, fdp⟩ := by
          simp [produceOne, hlt]
        have hlen2 : (⟨q ++ [⟨img, t, fp⟩], fp + 1, fdp⟩ : PipeState).queue.length ≤ queueSize := by
          simp only [List.length_append, List.length_cons, List.length_nil]
          omega
        obtain ⟨ih1, ih2, ih3⟩ := ih _ hlen2
        rw [hfold, hstep]
        dsimp only at ih1 ih2 ih3 ⊢
        rw [hri]
        refine ⟨?_, ?_, ?_⟩
        · rw [ih1]
          simp only [List.map_append, List.map_cons, List.map_nil, List.length_append,
            List.length_cons, List.length_nil, List.append_assoc, List.cons_append,
            List.nil_append]
          congr 1
          omega
        · rw [ih2]
          simp only [List.length_append, List.length_cons, List.length_nil]
          congr 1
          omega
        · rw [ih3]
          simp only [List.length_append, List.length_cons, List.length_nil]
          congr 1
          omega
      · have hlenq : q.length = queueSize := by omega
        cases q with
        | nil =>
          simp only [List.length_nil] at hlenq
          omega
        | cons q0 qtl =>
          have hlen' : qtl.length + 1 = queueSize := by simpa using hlenq
          have hstep : produceOne queueSize ⟨q0 :: qtl, fp, fdp⟩ (some (img, t)) =
              ⟨qtl ++ [⟨img, t, fp⟩], fp, fdp + 1⟩ := by
            simp only [produceOne]
            rw [if_neg]
            simp only [List.length_cons]
            omega
          have hlen2 : (⟨qtl ++ [⟨img, t, fp⟩], fp, fdp + 1⟩ : PipeState).queue.length ≤ queueSize := by
            simp only [List.length_append, List.length_cons, List.length_nil]
            omega
          obtain ⟨ih1, ih2, ih3⟩ := ih _ hlen2
          rw [hfold, hstep]
          dsimp only at ih1 ih2 ih3 ⊢
          rw [hri]
          refine ⟨?_, ?_, ?_⟩
          · rw [ih1]
            simp only [List.map_append, List.map_cons, List.map_nil, List.length_append,
              List.length_cons, List.length_nil, List.append_assoc, List.cons_append,
              List.nil_append, Nat.zero_add]
            have h1 : qtl.length + 1 + (readImages rest).length - queueSize =
                (readImages rest).length := by omega
            have h2 : qtl.length + 1 + ((readImages rest).length + 1) - queueSize =
                (readImages rest).length + 1 := by omega
            rw [h1, h2, List.drop_succ_cons]
          · rw [ih2]
            simp only [List.length_append, List.length_cons, List.length_nil]
            omega
          · rw [ih3]
            simp only [List.length_append, List.length_cons, List.length_nil]
            omega

/-! ## Claim theorems -/

/-- C1: counter-evidence on the code.  For the spec scenario
    `[{kind=info_note, severity=info}, {kind=X, severity=critical}]` the
    generated plan has the info step FIRST and the critical step second:
    `sorted(..., key=priority, reverse=True)` with
    `critical=0 < warning=1 < info=2` places the LARGEST priority number —
    info — first, the opposite of the documented
    "critical > warning > info" descending order. -/
theorem c1_plan_orders_info_before_critical :
    (generateFeedbackPlan [] 0
      [{ type := "info_note", severity := "info", message := "i", timestamp := 0 },
       { type := "X", severity := "critical", message := "c", timestamp := 0 }]).1 =
      [infoStep { type := "info_note", severity := "info", message := "i", timestamp := 0 },
       criticalStep { type := "X", severity := "critical", message := "c", timestamp := 0 }] ∧
    (generateFeedbackPlan [] 0
      [{ type := "info_note", severity := "info", message := "i", timestamp := 0 },
       { type := "X", severity := "critical", message := "c", timestamp := 0 }]).1.map
        FeedbackStep.modalities =
      [["audio"], ["audio", "vibration", "visual"]] := by
  decide

set_option maxRecDepth 4000 in
/-- C2: with a positive capacity the producer's queue never grows past the
    capacity, from an empty start the surviving frames are exactly the most
    recently produced ones (drop-oldest), overflowing by `k` frames sets
    `frames_dropped = k`, and in particular 40 frames through a capacity-30
    queue leave images 11..40 queued with 10 drops. -/
theorem c2_backpressure_drop_oldest (queueSize : Nat)
    (reads : List (Option (Nat × ℤ))) (hq : 1 ≤ queueSize) :
    (∀ s : PipeState, s.queue.length ≤ queueSize →
        (produceFrames queueSize s reads).queue.length ≤ queueSize) ∧
    (∀ (s : PipeState) (img : Nat) (t : ℤ), s.queue.length = queueSize →
        (produceOne queueSize s (some (img, t))).queue =
          s.queue.tail ++
            [{ image := img, timestamp := t, frame_id := s.frames_processed }] ∧
        (produceOne queueSize s (some (img, t))).frames_dropped =
          s.frames_dropped + 1) ∧
    (produceFrames queueSize initPipeState reads).queue.map FrameData.image =
      (readImages reads).drop ((readImages reads).length - queueSize) ∧
    (produceFrames queueSize initPipeState reads).frames_dropped =
      (readImages reads).length - queueSize ∧
    (produceFrames 30 initPipeState scenarioReads40).queue.map FrameData.image =
      List.range' 11 30 ∧
    (produceFrames 30 initPipeState scenarioReads40).frames_dropped = 10 := by
  have hinit : (initPipeState : PipeState).queue.length ≤ queueSize := by
    simp [initPipeState]
  refine ⟨?_, ?_, ?_, ?_, by decide, by decide⟩
  · intro s hs
    have h := (produceFrames_spec queueSize hq reads s hs).2.1
    rw [h]
    omega
  · intro s img t hfull
    obtain ⟨q, fp, fdp⟩ := s
    have hfull' : q.length = queueSize := hfull
    cases q with
    | nil =>
      simp only [List.length_nil] at hfull'
      omega
    | cons q0 qtl =>
      have hcond : ¬ (queueSize = 0 ∨ (q0 :: qtl).length < queueSize) := by
        simp only [List.length_cons] at hfull' ⊢
        omega
      constructor
      · show (produceOne queueSize ⟨q0 :: qtl, fp, fdp⟩ (some (img, t))).queue = _
        simp only [produceOne]
        rw [if_neg hcond]
        rfl
      · show (produceOne queueSize ⟨q0 :: qtl, fp, fdp⟩ (some (img, t))).frames_dropped = _
        simp only [produceOne]
        rw [if_neg hcond]
  · have h := (produceFrames_spec queueSize hq reads initPipeState hinit).1
    simpa [initPipeState] using h
  · have h := (produceFrames_spec queueSize hq reads initPipeState hinit).2.2
    simpa [initPipeState] using h

/-- Witness for C2: capacity 30, the 40-read scenario. -/
theorem c2_backpressure_drop_oldest_witness :
    (produceFrames 30 initPipeState scenarioReads40).frames_dropped =
      (readImages scenarioReads40).length - 30 :=
  (c2_backpressure_drop_oldest 30 scenarioReads40 (by decide)).2.2.2.1

set_option maxRecDepth 4000 in
/-- C3: the claim fails on the code.  Producing 32 frames into a
    capacity-30 queue reaches the eviction path, where
    `stats["frames_processed"]` is not incremented, so frames #31 and #32
    are both stamped `frame_id = 30`; the consumer then observes id 30
    twice — the observed sequence is neither strictly increasing nor
    duplicate-free. -/
theorem c3_duplicate_sequence_ids :
    ((consumeFrames (produceFrames 30 initPipeState scenarioReads32)).map
        FrameData.frame_id).count 30 = 2 ∧
    ¬ List.Pairwise (· < ·)
        ((consumeFrames (produceFrames 30 initPipeState scenarioReads32)).map
          FrameData.frame_id) ∧
    ¬ ((consumeFrames (produceFrames 30 initPipeState scenarioReads32)).map
        FrameData.frame_id).Nodup := by
  refine ⟨by decide, by decide, by decide⟩

/-- C8 counterexample: the producer does NOT terminate on a failed read —
    the frame delivered on the very next iteration is still enqueued and
    counted, so the loop kept running past the failure. -/
theorem c8_producer_continues_after_failed_read :
    (produceFrames 30 initPipeState [none, some (7, 0)]).queue.map
      FrameData.image = [7] ∧
    (produceFrames 30 initPipeState [none, some (7, 0)]).frames_processed = 1 := by
  decide

/-- C8 amended: a failed `camera.read_frame()` (returning `None`) leaves
    the queue and both counters untouched and the `while self.running`
    loop simply continues with the remaining reads; nothing is raised. -/
theorem c8_amended_failed_read_skips_and_continues (queueSize : Nat)
    (s : PipeState) (reads : List (Option (Nat × ℤ))) :
    produceOne queueSize s none = s ∧
    produceFrames queueSize s (none :: reads) = produceFrames queueSize s reads :=
  ⟨rfl, rfl⟩

/-- C9: with pose and flow failed (or absent) and site present, the
    orchestrator's vision stage totals out — the failed sub-analyses
    degrade to absent, the site detection still lands in the state, and
    the absent pose/flow map to the `angle = 0` / `speed = 0` sentinels. -/
theorem c9_partial_perception_tolerance
    (calcAngle : PoseData → ℚ) (calcSpeed : FlowData → ℚ)
    (e1 e2 : String) (img : Nat) (ts : ℤ) (s : SiteData) (st : VisionState) :
    processFrame (some img) ts (Except.error e1) (Except.ok (some s))
        (Except.error e2) =
      { pose := none, site := some s, flow := none, timestamp := ts } ∧
    visionProcessingNode calcAngle calcSpeed
        (processFrame (some img) ts (Except.error e1) (Except.ok (some s))
          (Except.error e2)) st =
      { pose_data := none, injection_site := some s, injection_angle := 0,
        injection_speed := 0 } ∧
    visionProcessingNode calcAngle calcSpeed
        (processFrame (some img) ts (Except.ok none) (Except.ok (some s))
          (Except.ok none)) st =
      { pose_data := none, injection_site := some s, injection_angle := 0,
        injection_speed := 0 } :=
  ⟨rfl, rfl, rfl⟩

/-- The history component of a single-alert plan loop is the purge and
    nothing else, whatever the suppression outcome and severity. -/
theorem planLoop_single_snd (now : ℤ) (a : Alert) (h : List HistoryEntry) :
    (planLoop now [a] h).2 = (shouldSuppress h now a).2 := by
  unfold planLoop
  dsimp only
  split
  · rfl
  · split <;> rfl

/-- Sending a first batch `[a]` on an empty history leaves exactly one
    entry, carrying `a`'s kind at the send time. -/
theorem sendFeedback_single_history (a : Alert) (t : ℤ) :
    (sendFeedback [] t [a]).2 =
      [{ type := a.type, severity := a.severity, message := a.message,
         timestamp := t }] := by
  show recordFeedback (planLoop t (sortAlerts [a]) []).2 t [a] = _
  rw [show sortAlerts [a] = [a] from rfl, planLoop_single_snd]
  rfl

/-- C4 counterexample: the spec scenario — `angle_error` sent at `t = 0`
    and again at `t = 5` under the 30 s window — gives an empty plan for
    the second batch, yet the history ends with TWO entries: the
    suppressed alert was recorded as well, refuting "only the surviving
    alerts are recorded". -/
theorem c4_suppressed_alert_still_recorded :
    (sendFeedback (sendFeedback [] 0 [angleAlertT0]).2 5 [angleAlertT5]).1 = [] ∧
    (sendFeedback (sendFeedback [] 0 [angleAlertT0]).2 5 [angleAlertT5]).2.length = 2 := by
  decide

/-- C4 amended: `send_feedback` records EVERY alert of a non-empty batch —
    surviving or suppressed — as `(kind, severity, message, timestamp=now)`
    appended after a purged remainder (a sublist) of the previous history;
    in the spec scenario the second plan is empty and the history holds two
    entries. -/
theorem c4_amended_every_alert_recorded (history : List HistoryEntry)
    (now : ℤ) (alerts : List Alert) (hne : alerts ≠ []) :
    (∃ kept, kept.Sublist history ∧
      (sendFeedback history now alerts).2 =
        kept ++ alerts.map fun a =>
          { type := a.type, severity := a.severity, message := a.message,
            timestamp := now }) ∧
    (sendFeedback (sendFeedback [] 0 [angleAlertT0]).2 5 [angleAlertT5]).1 = [] ∧
    (sendFeedback (sendFeedback [] 0 [angleAlertT0]).2 5 [angleAlertT5]).2.length = 2 := by
  refine ⟨⟨(generateFeedbackPlan history now alerts).2, ?_, ?_⟩, by decide, by decide⟩
  · exact planLoop_snd_sublist now (sortAlerts alerts) history
  · have hfalse : alerts.isEmpty = false := by
      cases alerts with
      | nil => exact absurd rfl hne
      | cons a rest => rfl
    simp [sendFeedback, hfalse, recordFeedback]

/-- Witness for C4's amended claim at the scenario's second batch. -/
theorem c4_amended_every_alert_recorded_witness :
    (∃ kept, kept.Sublist (sendFeedback [] 0 [angleAlertT0]).2 ∧
      (sendFeedback (sendFeedback [] 0 [angleAlertT0]).2 5 [angleAlertT5]).2 =
        kept ++ [angleAlertT5].map fun a =>
          { type := a.type, severity := a.severity, message := a.message,
            timestamp := 5 }) ∧
    (sendFeedback (sendFeedback [] 0 [angleAlertT0]).2 5 [angleAlertT5]).1 = [] ∧
    (sendFeedback (sendFeedback [] 0 [angleAlertT0]).2 5 [angleAlertT5]).2.length = 2 :=
  c4_amended_every_alert_recorded (sendFeedback [] 0 [angleAlertT0]).2 5
    [angleAlertT5] (by decide)

/-- C5: deduplication over the 30 s window.  After a first alert is
    recorded at `t0`, a same-kind alert arriving at `t1` is suppressed and
    yields no plan step when `t1 - t0 < 30`, while past the window it is
    not suppressed and yields its severity's step; the first alert itself
    (fresh history) yields its step; suppression reads only the alert kind
    (never message, severity or the alert's own timestamp), and every
    `_should_suppress` call purges the expired entries first. -/
theorem c5_dedup_window (a1 a2 : Alert) (t0 t1 : ℤ) (hk : a2.type = a1.type) :
    ((t1 - t0 < 30) →
      (shouldSuppress (sendFeedback [] t0 [a1]).2 t1 a2).1 = true ∧
      (generateFeedbackPlan (sendFeedback [] t0 [a1]).2 t1 [a2]).1 = []) ∧
    ((30 < t1 - t0) →
      (shouldSuppress (sendFeedback [] t0 [a1]).2 t1 a2).1 = false ∧
      (a2.severity = "critical" →
        (generateFeedbackPlan (sendFeedback [] t0 [a1]).2 t1 [a2]).1 =
          [criticalStep a2]) ∧
      (a2.severity = "warning" →
        (generateFeedbackPlan (sendFeedback [] t0 [a1]).2 t1 [a2]).1 =
          [warningStep a2]) ∧
      (a2.severity = "info" →
        (generateFeedbackPlan (sendFeedback [] t0 [a1]).2 t1 [a2]).1 =
          [infoStep a2])) ∧
    ((a1.severity = "critical" →
        (generateFeedbackPlan [] t0 [a1]).1 = [criticalStep a1]) ∧
      (a1.severity = "warning" →
        (generateFeedbackPlan [] t0 [a1]).1 = [warningStep a1]) ∧
      (a1.severity = "info" →
        (generateFeedbackPlan [] t0 [a1]).1 = [infoStep a1])) ∧
    (∀ (history : List HistoryEntry) (now : ℤ) (k s1 s2 m1 m2 : String)
        (ts1 ts2 : ℤ),
      (shouldSuppress history now
          { type := k, severity := s1, message := m1, timestamp := ts1 }).1 =
        (shouldSuppress history now
          { type := k, severity := s2, message := m2, timestamp := ts2 }).1) ∧
    (∀ (history : List HistoryEntry) (now : ℤ) (a : Alert),
      (shouldSuppress history now a).2 =
        history.filter fun e =>
          decide (now - historyWindowSec < e.timestamp)) := by
  have hhist := sendFeedback_single_history a1 t0
  refine ⟨?_, ?_, ?_, fun _ _ _ _ _ _ _ _ _ => rfl, fun h n a => shouldSuppress_snd h n a⟩
  · intro hw
    have hc : t1 - historyWindowSec < t0 := by
      simp only [historyWindowSec]
      omega
    have hsup : (shouldSuppress (sendFeedback [] t0 [a1]).2 t1 a2).1 = true := by
      rw [hhist]
      simp [shouldSuppress, hc, hk]
    refine ⟨hsup, ?_⟩
    show (planLoop t1 (sortAlerts [a2]) (sendFeedback [] t0 [a1]).2).1 = []
    rw [show sortAlerts [a2] = [a2] from rfl]
    unfold planLoop
    dsimp only
    rw [if_pos hsup]
    rfl
  · intro hw
    have hc : ¬ (t1 - historyWindowSec < t0) := by
      simp only [historyWindowSec]
      omega
    have hsup : (shouldSuppress (sendFeedback [] t0 [a1]).2 t1 a2).1 = false := by
      rw [hhist]
      simp [shouldSuppress, hc]
    refine ⟨hsup, ?_, ?_, ?_⟩ <;> intro hsev <;>
      · show (planLoop t1 (sortAlerts [a2]) (sendFeedback [] t0 [a1]).2).1 = _
        rw [show sortAlerts [a2] = [a2] from rfl]
        unfold planLoop
        dsimp only
        rw [if_neg (by rw [hsup]; simp)]
        simp [severityStep, hsev, planLoop]
  · have hsup0 : (shouldSuppress [] t0 a1).1 = false := rfl
    refine ⟨?_, ?_, ?_⟩ <;> intro hsev <;>
      · show (planLoop t0 (sortAlerts [a1]) []).1 = _
        rw [show sortAlerts [a1] = [a1] from rfl]
        unfold planLoop
        dsimp only
        rw [if_neg (by rw [hsup0]; simp)]
        simp [severityStep, hsev, planLoop]

/-- Witness for C5: same-kind critical alerts at `t0 = 0` and `t1 = 5`
    (inside the window): the second is suppressed with an empty plan. -/
theorem c5_dedup_window_witness :
    (shouldSuppress (sendFeedback [] 0 [angleAlertT0]).2 5 angleAlertT5).1 = true ∧
    (generateFeedbackPlan (sendFeedback [] 0 [angleAlertT0]).2 5 [angleAlertT5]).1 = [] :=
  (c5_dedup_window angleAlertT0 angleAlertT5 0 5 rfl).1 (by decide)

/-- C6: severity strictly determines each plan step's modalities — every
    step of every generated plan is its alert's severity step (critical:
    exactly audio+vibration+visual, simultaneous; warning: exactly
    audio+vibration, simultaneous; info: exactly audio, no
    synchronization), and an unsuppressed single alert generates exactly
    that one step. -/
theorem c6_severity_determines_modalities (history : List HistoryEntry) (now : ℤ) :
    (∀ (alerts : List Alert) (step : FeedbackStep),
      step ∈ (generateFeedbackPlan history now alerts).1 →
      ∃ a, a ∈ alerts ∧
        ((a.severity = "critical" ∧ step = criticalStep a ∧
          step.modalities = ["audio", "vibration", "visual"] ∧
          step.synchronization = "simultaneous") ∨
         (a.severity = "warning" ∧ step = warningStep a ∧
          step.modalities = ["audio", "vibration"] ∧
          step.synchronization = "simultaneous") ∨
         (a.severity = "info" ∧ step = infoStep a ∧
          step.modalities = ["audio"] ∧
          step.synchronization = "none"))) ∧
    (∀ a : Alert, (shouldSuppress history now a).1 = false →
      (a.severity = "critical" →
        (generateFeedbackPlan history now [a]).1 = [criticalStep a]) ∧
      (a.severity = "warning" →
        (generateFeedbackPlan history now [a]).1 = [warningStep a]) ∧
      (a.severity = "info" →
        (generateFeedbackPlan history now [a]).1 = [infoStep a])) := by
  constructor
  · intro alerts step hmem
    obtain ⟨a, ha, hm⟩ := planLoop_mem now (sortAlerts alerts) history step hmem
    refine ⟨a, mem_sortAlerts.mp ha, ?_⟩
    rcases hm with ⟨h1, h2⟩ | ⟨h1, h2⟩ | ⟨h1, h2⟩
    · exact Or.inl ⟨h1, h2, by rw [h2]; rfl, by rw [h2]; rfl⟩
    · exact Or.inr (Or.inl ⟨h1, h2, by rw [h2]; rfl, by rw [h2]; rfl⟩)
    · exact Or.inr (Or.inr ⟨h1, h2, by rw [h2]; rfl, by rw [h2]; rfl⟩)
  · intro a hsup
    refine ⟨?_, ?_, ?_⟩ <;> intro hsev <;>
      · show (planLoop now (sortAlerts [a]) history).1 = _
        rw [show sortAlerts [a] = [a] from rfl]
        unfold planLoop
        dsimp only
        rw [if_neg (by rw [hsup]; simp)]
        simp [severityStep, hsev, planLoop]

/-- Witness for C6: an unsuppressed critical alert generates exactly its
    three-modality simultaneous step. -/
theorem c6_severity_determines_modalities_witness :
    (shouldSuppress [] 0 angleAlertT0).1 = false ∧
    (generateFeedbackPlan [] 0 [angleAlertT0]).1 = [criticalStep angleAlertT0] :=
  ⟨by decide,
    ((c6_severity_determines_modalities [] 0).2 angleAlertT0 (by decide)).1 rfl⟩

/-- A modality slot whose payload is present (or that is absent) builds its
    task list without raising. -/
theorem modalityTask_eq {α : Type} (b : Bool) (p : Option α)
    (mk : α → OutputCall) (h : (!b || p.isSome) = true) :
    modalityTask b p mk = some (if b then (p.map mk).toList else []) := by
  cases b <;> cases p <;> simp_all [modalityTask]

/-- For a well-formed plan item the `tasks` list is built without raising
    and contains exactly the item's calls. -/
theorem itemTasks_of_WF (item : FeedbackStep) (h : stepWF item = true) :
    itemTasks item = some (itemCalls item) := by
  unfold stepWF at h
  rw [Bool.and_eq_true, Bool.and_eq_true] at h
  obtain ⟨⟨h1, h2⟩, h3⟩ := h
  unfold itemTasks itemCalls
  rw [modalityTask_eq _ _ _ h1, modalityTask_eq _ _ _ h2, modalityTask_eq _ _ _ h3]
  simp

/-- A well-formed plan item executes all of its calls, whatever the
    collaborators' outcomes, in both the gather branch and the sequential
    branch. -/
theorem executeItem_of_WF (env : OutputEnv) (item : FeedbackStep)
    (h : stepWF item = true) :
    ∃ logs, executeItem env item = some (itemCalls item, logs) := by
  unfold executeItem
  rw [itemTasks_of_WF item h]
  by_cases hs : item.synchronization = "simultaneous" ∧ 1 < (itemCalls item).length
  · exact ⟨[], by simp [hs]⟩
  · refine ⟨(itemCalls item).filterMap fun t =>
      match runCall env t with
      | .error e => some e
      | .ok _ => none, ?_⟩
    simp [hs]

/-- Induction core of C7 over the plan. -/
theorem executePlan_of_WF (env : OutputEnv) :
    ∀ plan : List FeedbackStep, plan.all stepWF = true →
      ∃ logs, executeFeedbackPlan env plan =
        some (plan.flatMap itemCalls, logs)
  | [], _ => ⟨[], rfl⟩
  | item :: rest, hwf => by
    rw [List.all_cons, Bool.and_eq_true] at hwf
    obtain ⟨h1, h2⟩ := hwf
    obtain ⟨logs1, hi⟩ := executeItem_of_WF env item h1
    obtain ⟨logs2, hr⟩ := executePlan_of_WF env rest h2
    refine ⟨logs1 ++ logs2, ?_⟩
    unfold executeFeedbackPlan
    rw [hi, hr]
    simp [List.flatMap_cons]

/-- C7: output failures are isolated.  For every environment of
    (possibly-raising) collaborators and every well-formed plan, execution
    issues exactly every planned modality call in plan order — the call
    trace `plan.flatMap itemCalls` does not depend on which calls raise,
    so a raising sibling never suppresses the others and a raising step
    never aborts the remaining steps. -/
theorem c7_output_failures_isolated (env : OutputEnv)
    (plan : List FeedbackStep) (hwf : plan.all stepWF = true) :
    ∃ logs, executeFeedbackPlan env plan =
      some (plan.flatMap itemCalls, logs) :=
  executePlan_of_WF env plan hwf

/-- Witness for C7: a raising haptic collaborator, one critical
    (simultaneous, three-modality) step and one info step — each call of
    both steps is still issued. -/
theorem c7_output_failures_isolated_witness :
    ∃ logs, executeFeedbackPlan failingVibrationEnv
        [criticalStep angleAlertT0, infoStep angleAlertT5] =
      some ([criticalStep angleAlertT0, infoStep angleAlertT5].flatMap
        itemCalls, logs) :=
  c7_output_failures_isolated failingVibrationEnv
    [criticalStep angleAlertT0, infoStep angleAlertT5] (by decide)

/-- C10: an alert with a severity outside the three known strings is
    ranked with info priority by `_get_severity_priority`, yet the
    severity chain emits no step for it — a singleton batch generates an
    empty plan, and in any batch every emitted step belongs to an alert
    with one of the three known severities (never to this alert). -/
theorem c10_unknown_severity_silently_dropped (history : List HistoryEntry)
    (now : ℤ) (a : Alert) (h1 : a.severity ≠ "critical")
    (h2 : a.severity ≠ "warning") (h3 : a.severity ≠ "info") :
    getSeverityPriority a.severity = FeedbackPriority.INFO ∧
    severityStep a = none ∧
    (generateFeedbackPlan history now [a]).1 = [] ∧
    (∀ (alerts : List Alert) (step : FeedbackStep),
      step ∈ (generateFeedbackPlan history now alerts).1 →
      ∃ b, b ∈ alerts ∧ b.severity ≠ a.severity ∧
        ((b.severity = "critical" ∧ step = criticalStep b) ∨
         (b.severity = "warning" ∧ step = warningStep b) ∨
         (b.severity = "info" ∧ step = infoStep b))) := by
  have hstep : severityStep a = none := by
    simp [severityStep, h1, h2, h3]
  refine ⟨by simp [getSeverityPriority, h1, h2, h3], hstep, ?_, ?_⟩
  · show (planLoop now (sortAlerts [a]) history).1 = []
    rw [show sortAlerts [a] = [a] from rfl]
    unfold planLoop
    dsimp only
    split
    · rfl
    · rw [hstep]
      simp [planLoop]
  · intro alerts step hmem
    obtain ⟨b, hb, hm⟩ := planLoop_mem now (sortAlerts alerts) history step hmem
    refine ⟨b, mem_sortAlerts.mp hb, ?_, hm⟩
    rcases hm with ⟨hs, _⟩ | ⟨hs, _⟩ | ⟨hs, _⟩ <;>
      exact fun heq => by
        first
        | exact h1 (heq.symm.trans hs)
        | exact h2 (heq.symm.trans hs)
        | exact h3 (heq.symm.trans hs)

/-- Witness for C10 at severity `"fatal"`. -/
theorem c10_unknown_severity_silently_dropped_witness :
    (generateFeedbackPlan [] 0
      [{ type := "x", severity := "fatal", message := "m", timestamp := 0 }]).1 = [] :=
  (c10_unknown_severity_silently_dropped [] 0
    { type := "x", severity := "fatal", message := "m", timestamp := 0 }
    (by decide) (by decide) (by decide)).2.2.1
